import Mathlib

/-!
# Verification of the yt-summary transcript pipeline (server/main.py)

A shallow embedding of the pure decision logic of `server/main.py`:
the result cache, the error classifier and backoff executor, the caption
track selection, the duration estimator, the transcript truncation, the
prompt-template selection, the video-id resolver, and the multi-strategy
transcript extraction chain.  External network effects (HTTP calls,
downloads, speech-to-text) are modelled as the observable outcomes they
return to the orchestration logic; exceptions become `Except` errors.
-/

namespace YtSummary

/-! ## Generic list helpers (Python `in`, `split`, slicing building blocks) -/

/-- `leadsWith n h` is true when `n` is an initial segment of `h`
(building block for Python's substring test `n in h`). -/
def leadsWith : List Char → List Char → Bool
  | [], _ => true
  | _ :: _, [] => false
  | a :: as, b :: bs => a == b && leadsWith as bs

/-- `containsSeq n h` models Python's substring test `n in h` on character
lists: `n` occurs contiguously inside `h` (the empty needle always matches). -/
def containsSeq (needle : List Char) : List Char → Bool
  | [] => leadsWith needle []
  | hay@(_ :: rest) => leadsWith needle hay || containsSeq needle rest

/-- Python's `tok in msg` on strings. -/
def containsSub (needle hay : String) : Bool :=
  containsSeq needle.data hay.data

/-- Python's `str.lower`, modelled character-wise (the keywords and tokens
used by the classifier are ASCII or Korean, where per-character lowering
agrees with Python). -/
def pyLower (s : String) : String :=
  String.mk (s.data.map Char.toLower)

/-- `breakFirst p l` splits `l` at the first element satisfying `p`:
`(before, some after)` with the delimiter dropped, or `(l, none)` when no
element satisfies `p`.  Building block for Python's `str.split(c, 1)` and
`str.find`. -/
def breakFirst (p : Char → Bool) : List Char → List Char × Option (List Char)
  | [] => ([], none)
  | c :: rest =>
    if p c then ([], some rest)
    else
      let r := breakFirst p rest
      (c :: r.1, r.2)

/-- Python's `str.split(sep)` (all occurrences) on character lists. -/
def splitSep (sep : Char) : List Char → List (List Char)
  | [] => [[]]
  | a :: rest =>
    let r := splitSep sep rest
    if a == sep then [] :: r
    else
      match r with
      | [] => [[a]]
      | g :: gs => (a :: g) :: gs

theorem leadsWith_map (f : Char → Char) :
    ∀ n h : List Char, leadsWith n h = true → leadsWith (n.map f) (h.map f) = true := by
  intro n
  induction n with
  | nil => intro h _; simp [leadsWith]
  | cons a as ih =>
    intro h hlead
    cases h with
    | nil => simp [leadsWith] at hlead
    | cons b bs =>
      simp only [leadsWith, Bool.and_eq_true, beq_iff_eq] at hlead
      simp only [List.map_cons, leadsWith, Bool.and_eq_true, beq_iff_eq]
      exact ⟨by rw [hlead.1], ih bs hlead.2⟩

theorem containsSeq_map (f : Char → Char) :
    ∀ n h : List Char, containsSeq n h = true → containsSeq (n.map f) (h.map f) = true := by
  intro n h
  induction h with
  | nil =>
    intro hc
    simp only [containsSeq] at hc ⊢
    cases n with
    | nil => simp [leadsWith]
    | cons a as => simp [leadsWith] at hc
  | cons b bs ih =>
    intro hc
    simp only [containsSeq, Bool.or_eq_true] at hc ⊢
    cases hc with
    | inl hl => exact Or.inl (leadsWith_map f n (b :: bs) hl)
    | inr hr => exact Or.inr (ih hr)

/-- Substring tests are preserved by character-wise maps such as lowering. -/
theorem containsSub_map_lower (needle hay : String)
    (h : containsSub needle hay = true) :
    containsSub (pyLower needle) (pyLower hay) = true := by
  unfold containsSub pyLower at *
  exact containsSeq_map Char.toLower needle.data hay.data h

/-! ## Result cache (`get_cache_key`, `get_cached_result`, `set_cached_result`)

The module-level `CACHE` dict is modelled as an insertion-ordered
association list, the semantics of a Python 3.7+ `dict`: assigning to an
existing key updates it in place, assigning a new key appends it, and
`next(iter(CACHE))` is the first (oldest-inserted) key. -/

/-- `get_cache_key` from the source: `f"video_{video_id}"`. -/
def get_cache_key (video_id : String) : String :=
  "video_" ++ video_id

/-- Python dict assignment `d[k] = v` on an insertion-ordered association
list: update in place when the key exists, append otherwise. -/
def dictInsert {V : Type} (k : String) (v : V) : List (String × V) → List (String × V)
  | [] => [(k, v)]
  | (k', v') :: rest =>
    if k' == k then (k', v) :: rest else (k', v') :: dictInsert k v rest

/-- Python `del d[k]`: remove the (unique) entry with key `k`. -/
def delKey {V : Type} (k : String) : List (String × V) → List (String × V)
  | [] => []
  | (k', v') :: rest => if k' == k then rest else (k', v') :: delKey k rest

/-- `get_cached_result`: `CACHE.get(cache_key)`, the first entry whose key
matches, if any. -/
def get_cached_result {V : Type} (video_id : String) (cache : List (String × V)) :
    Option V :=
  (cache.find? (fun p => p.1 == get_cache_key video_id)).map (fun p => p.2)

/-- `set_cached_result` from the source: insert the result under the cache
key, then, if the dict now holds more than 100 entries, delete
`next(iter(CACHE))` — the oldest-inserted key. -/
def set_cached_result {V : Type} (video_id : String) (result : V)
    (cache : List (String × V)) : List (String × V) :=
  let c := dictInsert (get_cache_key video_id) result cache
  if c.length > 100 then
    match c.head? with
    | some (k, _) => delKey k c
    | none => c
  else c

/-! ## Error classifier (`_is_429_error`, `_is_access_restricted_error`) -/

/-- The keyword list of `_is_access_restricted_error`, verbatim from the
source. -/
def restricted_keywords : List String :=
  ["Too Many Requests", "429", "sorry/index",
   "Sign in to confirm", "bot", "captcha", "verification",
   "blocked", "forbidden", "access denied", "rate limit",
   "quota exceeded", "daily limit", "hourly limit",
   "Client Error", "youtube", "transcript", "retrieve",
   "Could not retrieve", "transcript for the video",
   "YouTube 자막 접근 제한", "자막 처리 중 오류",
   "접근 제한", "제한", "restricted", "limit"]

/-- `_is_429_error` / the inline retry test of `_with_backoff`:
`any(tok in msg for tok in ["Too Many Requests", "429", "sorry/index"])`
(case-sensitive). -/
def is_429_error (error_msg : String) : Bool :=
  ["Too Many Requests", "429", "sorry/index"].any
    (fun tok => containsSub tok error_msg)

/-- `_is_access_restricted_error`:
`any(keyword.lower() in error_msg.lower() for keyword in restricted_keywords)`. -/
def is_access_restricted_error (error_msg : String) : Bool :=
  restricted_keywords.any
    (fun keyword => containsSub (pyLower keyword) (pyLower error_msg))

/-- The error classes of the spec's Error Classifier.  The source has no
explicit enum; the class is determined by the decision order of
`_with_backoff`, which consults `_is_access_restricted_error` first and the
429 token list second, so restricted status takes priority. -/
inductive ErrorClass where
  | rateLimited
  | accessRestricted
  | otherClass
deriving DecidableEq, Repr

/-- Classification as performed by `_with_backoff`'s decision order:
the access-restricted test runs first, then the 429 retry test. -/
def classify_error (msg : String) : ErrorClass :=
  if is_access_restricted_error msg then ErrorClass.accessRestricted
  else if is_429_error msg then ErrorClass.rateLimited
  else ErrorClass.otherClass

/-! ## Backoff executor (`_with_backoff`)

The fallible operation is modelled as a function from the attempt index to
its outcome.  The executor returns the final outcome together with the
number of invocations it made, so attempt counts are part of the model. -/

/-- The retry delays of `_with_backoff`: `delays = [1, 3, 7, 12]`. -/
def backoff_delays : List Nat := [1, 3, 7, 12]

/-- The loop of `_with_backoff` over `[0] + delays`: try the operation; on
an exception, abort at once when the message is access-restricted, retry
(after sleeping) when it matches a 429 token, abort otherwise; after the
schedule is exhausted re-raise the last error.  Returns the outcome and the
number of invocations made. -/
def with_backoff_go {α : Type} (op : Nat → Except String α) :
    List Nat → Nat → Option String → Except String α × Nat
  | [], n, lastErr => (Except.error (lastErr.getD ""), n)
  | _ :: restDelays, n, _ =>
    match op n with
    | Except.ok a => (Except.ok a, n + 1)
    | Except.error msg =>
      if is_access_restricted_error msg then (Except.error msg, n + 1)
      else if is_429_error msg then with_backoff_go op restDelays (n + 1) (some msg)
      else (Except.error msg, n + 1)

/-- `_with_backoff`: run `op` under the schedule `[0] + [1, 3, 7, 12]`
(1 initial attempt plus up to 4 retries). -/
def with_backoff {α : Type} (op : Nat → Except String α) : Except String α × Nat :=
  with_backoff_go op (0 :: backoff_delays) 0 none

/-! ## Caption track selection (`_try_youtube_api`, lines 692–707)

`_try_youtube_api` scans `captions_data['items']` with two for-loops: it
takes the first item whose `snippet.language` is `'ko'`, and if none
exists, the first whose language is `'en'`.  Only the language field is
ever read; the track kind (manual vs auto-generated) is carried in the
model so the spec's claimed manual-first tie-break can be compared. -/

structure CaptionTrack where
  language : String
  isGenerated : Bool
deriving DecidableEq, Repr

/-- The caption-track selection of `_try_youtube_api`: first `'ko'` track
in listing order, else first `'en'` track, else none. -/
def select_caption_track (items : List CaptionTrack) : Option CaptionTrack :=
  match items.find? (fun c => c.language == "ko") with
  | some c => some c
  | none => items.find? (fun c => c.language == "en")

/-- Modelled from the spec: the tie-break order the spec claims for
strategy 1 — primary-language manually-created, then primary-language
any-source, then secondary-language manually-created, then
secondary-language any-source.  (The spec's fifth tier, a primary-language
track machine-translated to the primary language, has no counterpart at
all in the source, which has no translation mechanism; it is omitted here
and the comparison with the source already fails at the first tier.) -/
def spec_caption_tiebreak (items : List CaptionTrack) : Option CaptionTrack :=
  (items.find? (fun c => c.language == "ko" && !c.isGenerated)).orElse (fun _ =>
  (items.find? (fun c => c.language == "ko")).orElse (fun _ =>
  (items.find? (fun c => c.language == "en" && !c.isGenerated)).orElse (fun _ =>
  items.find? (fun c => c.language == "en"))))

/-! ## Duration estimator (`estimate_processing_time`)

The source computes `a = (70 - 48) / (900 - 300)`, `b = 48 - a * 300`,
`int(a * d + b)` in IEEE double arithmetic.  Exactly, `a * d + b =
(22 * d + 22200) / 600 ≥ 48`, whose distance to the nearest integer below
is at least `1/300` except at `d = 600` where the double computation is
exact (`a * 300` and `a * 600` round to `11.0` and `22.0`); the double
rounding error is below `10⁻¹³`, so `int(·)` (truncation toward zero of a
positive value) coincides with the integer division below for every
`300 < d < 900`. -/

def estimate_processing_time (duration_seconds : Nat) : Nat :=
  if duration_seconds = 0 then 60
  else if duration_seconds ≤ 300 then 48
  else if 900 ≤ duration_seconds then 70
  else (22 * duration_seconds + 22200) / 600

/-! ## Transcript truncation and prompt selection (`summarize_with_openai`) -/

/-- The joiner inserted between head and tail: `"\n...\n"`. -/
def ellipsis_marker : List Char := "\n...\n".data

/-- The input-length defense of `summarize_with_openai`: if the transcript
exceeds `max_chars = 16000` characters, keep `text[:12000]`, the marker,
and `text[-3000:]`. -/
def truncate_transcript (text : List Char) : List Char :=
  if text.length > 16000 then
    text.take 12000 ++ ellipsis_marker ++ text.drop (text.length - 3000)
  else text

/-- The user prompt of `summarize_with_openai` when `lang_code == "ko"`. -/
def ko_user_prompt (transcript_text : String) : String :=
  "다음 자막을 위 형식에 맞춰 한국어로 구조화 요약해 주세요.\n\n자막:\n"
    ++ transcript_text

/-- The user prompt of `summarize_with_openai` otherwise (translate, then
summarize). -/
def translate_user_prompt (transcript_text : String) : String :=
  "다음 자막이 영어이거나 혼합어일 수 있습니다. 내용을 한국어로 자연스럽게 번역한 뒤, 위 형식에 맞춰 구조화 요약해 주세요.\n\n자막:\n"
    ++ transcript_text

/-- The prompt-template dispatch of `summarize_with_openai`:
`if lang_code == "ko"` (a `None` language compares unequal). -/
def select_user_prompt (transcript_text : String) (lang_code : Option String) :
    String :=
  if lang_code == some "ko" then ko_user_prompt transcript_text
  else translate_user_prompt transcript_text

/-! ## The extraction strategy chain (`fetch_transcript_text`)

Each strategy call is modelled by the outcome it produces: a raised
exception (with its Python type) or the returned value.  The chain's own
control flow — the five `try/except` stages, their acceptance guards, and
the final aggregated `raise` — is translated from the source. -/

/-- The Python exception types distinguished by the `summarize` endpoints:
`TranscriptsDisabled` and `NoTranscriptFound` from `youtube_transcript_api`
(mapped to 404) and every other `Exception` (mapped to 500). -/
inductive PyExc where
  | transcriptsDisabled : String → PyExc
  | noTranscriptFound : String → PyExc
  | otherExc : String → PyExc
deriving DecidableEq, Repr

/-- The aggregated all-methods-exhausted message raised at the end of
`fetch_transcript_text`. -/
def all_methods_failed_message : String :=
  "🚫 모든 추출 방법이 실패했습니다. YouTube의 봇 감지가 매우 강화되어 일시적으로 접근이 제한되었습니다. 잠시 후 다시 시도해 주세요."

/-- The marker the chain looks for in strategy 5's result:
`"영상 제목" in alternative_text`. -/
def title_marker : String := "영상 제목"

/-- The placeholder `_try_alternative_extraction` returns when every
alternative URL fails (source line 228); it does not contain the title
marker. -/
def alternative_default_message (video_id : String) : String :=
  "죄송합니다. 영상 ID " ++ video_id
    ++ "의 자막을 추출할 수 없습니다. YouTube의 봇 감지로 인해 일시적으로 접근이 제한되었습니다. 잠시 후 다시 시도해 주세요."

/-- The observable outcomes of the five strategy calls made by
`fetch_transcript_text`: `_try_youtube_api` (returns `Optional[str]`),
`_download_audio_with_ytdlp` and `_download_audio_with_advanced_stealth`
(return `str`), `_download_audio_with_selenium` (returns `Optional[str]`),
and `_try_alternative_extraction` (returns `str`). -/
structure StrategyRuns where
  try_youtube_api : Except PyExc (Option String)
  download_audio_with_ytdlp : Except PyExc String
  download_audio_with_advanced_stealth : Except PyExc String
  download_audio_with_selenium : Except PyExc (Option String)
  try_alternative_extraction : Except PyExc String
deriving Repr

/-- Stage 1 of the chain: only runs when `YOUTUBE_API_KEY` is set to a
non-empty value (`if api_key:`); accepts a non-`None`, non-empty result
(`if transcript_text:`), tagging it `"youtube_api"`.  A raised exception
is swallowed. -/
def stage1_result (apiKey : Option String) (s1 : Except PyExc (Option String)) :
    Option (String × Option String) :=
  match apiKey with
  | none => none
  | some k =>
    if k = "" then none
    else
      match s1 with
      | Except.ok (some t) => if t = "" then none else some (t, some "youtube_api")
      | _ => none

/-- Stage 2: accepts any returned string unconditionally, tagging it
`"whisper"`; a raised exception is swallowed. -/
def stage2_result (s2 : Except PyExc String) : Option (String × Option String) :=
  match s2 with
  | Except.ok t => some (t, some "whisper")
  | Except.error _ => none

/-- Stage 3: like stage 2, tagging `"advanced_stealth"`. -/
def stage3_result (s3 : Except PyExc String) : Option (String × Option String) :=
  match s3 with
  | Except.ok t => some (t, some "advanced_stealth")
  | Except.error _ => none

/-- Stage 4: accepts a non-`None`, non-empty result (`if selenium_text:`),
tagging it `"selenium"`; a raised exception is swallowed. -/
def stage4_result (s4 : Except PyExc (Option String)) :
    Option (String × Option String) :=
  match s4 with
  | Except.ok (some t) => if t = "" then none else some (t, some "selenium")
  | _ => none

/-- Stage 5: accepts the result only when it is non-empty **and** contains
the title marker (`if alternative_text and "영상 제목" in alternative_text:`),
tagging it `"alternative"`; a raised exception is swallowed. -/
def stage5_result (s5 : Except PyExc String) : Option (String × Option String) :=
  match s5 with
  | Except.ok t =>
    if t = "" then none
    else if containsSub title_marker t then some (t, some "alternative")
    else none
  | Except.error _ => none

/-- `fetch_transcript_text`: try the five stages in order, returning the
first accepted result; if no stage accepts, raise the aggregated plain
`Exception`. -/
def fetch_transcript_text (apiKey : Option String) (runs : StrategyRuns) :
    Except PyExc (String × Option String) :=
  match stage1_result apiKey runs.try_youtube_api with
  | some r => Except.ok r
  | none =>
  match stage2_result runs.download_audio_with_ytdlp with
  | some r => Except.ok r
  | none =>
  match stage3_result runs.download_audio_with_advanced_stealth with
  | some r => Except.ok r
  | none =>
  match stage4_result runs.download_audio_with_selenium with
  | some r => Except.ok r
  | none =>
  match stage5_result runs.try_alternative_extraction with
  | some r => Except.ok r
  | none => Except.error (PyExc.otherExc all_methods_failed_message)

/-- The status code each `summarize` endpoint maps a
`fetch_transcript_text` exception to: 404 for `TranscriptsDisabled` /
`NoTranscriptFound`, 500 for any other exception. -/
def exc_status (e : PyExc) : Nat :=
  match e with
  | PyExc.transcriptsDisabled _ => 404
  | PyExc.noTranscriptFound _ => 404
  | PyExc.otherExc _ => 500

/-! ## Video-id resolver (`extract_video_id`)

`extract_video_id` delegates to `urllib.parse.urlparse` and `parse_qs`.
Those library routines are modelled below on character lists, following
CPython's `urlsplit`/`parse_qsl`: scheme split at the first `':'` when the
prefix is a valid scheme, netloc after `'//'` up to the first of
`'/' '?' '#'`, fragment at the first `'#'`, query at the first `'?'`.
Two simplifications that cannot affect the theorems proved here:
percent and plus decoding of query values is the identity (video ids use only
URL-safe characters), and `urlparse`'s extra `';params'` split of the last
path segment is omitted. -/

/-- CPython's `scheme_chars`: letters, digits, `'+'`, `'-'`, `'.'`. -/
def scheme_char (c : Char) : Bool :=
  c.isAlpha || c.isDigit || c == '+' || c == '-' || c == '.'

structure UrlParts where
  scheme : List Char
  netloc : List Char
  path : List Char
  query : List Char
  fragment : List Char
deriving DecidableEq, Repr

/-- Scheme extraction: the part before the first `':'` when it is nonempty,
starts with an ASCII letter and consists of scheme characters; otherwise no
scheme is split off. -/
def splitScheme (url : List Char) : List Char × List Char :=
  match breakFirst (fun c => c == ':') url with
  | (before, some after) =>
    match before with
    | [] => ([], url)
    | c0 :: _ =>
      if c0.isAlpha && before.all scheme_char then
        (before.map Char.toLower, after)
      else ([], url)
  | (_, none) => ([], url)

/-- A netloc delimiter: `'/'`, `'?'` or `'#'`. -/
def netloc_delim (c : Char) : Bool :=
  c == '/' || c == '?' || c == '#'

/-- Netloc extraction: when the remainder starts with `'//'`, the netloc
runs up to the first of `'/' '?' '#'`, which stays in the remainder. -/
def splitNetloc (url : List Char) : List Char × List Char :=
  match url with
  | '/' :: '/' :: rest =>
    (rest.takeWhile (fun c => !netloc_delim c),
     rest.dropWhile (fun c => !netloc_delim c))
  | _ => ([], url)

/-- Fragment split at the first `'#'` (delimiter dropped). -/
def splitFragment (url : List Char) : List Char × List Char :=
  match breakFirst (fun c => c == '#') url with
  | (before, some after) => (before, after)
  | (before, none) => (before, [])

/-- Query split at the first `'?'` (delimiter dropped). -/
def splitQuery (url : List Char) : List Char × List Char :=
  match breakFirst (fun c => c == '?') url with
  | (before, some after) => (before, after)
  | (before, none) => (before, [])

/-- `urllib.parse.urlparse`, restricted to the fields the resolver reads. -/
def pyUrlparse (url : List Char) : UrlParts :=
  let s := splitScheme url
  let n := splitNetloc s.2
  let f := splitFragment n.2
  let q := splitQuery f.1
  ⟨s.1, n.1, q.1, q.2, f.2⟩

/-- `urllib.parse.parse_qsl` with default arguments: split the query at
`'&'`; a pair without `'='` or with an empty value is skipped
(`keep_blank_values=False`). -/
def parse_qsl (query : List Char) : List (List Char × List Char) :=
  (splitSep '&' query).filterMap (fun pair =>
    match breakFirst (fun c => c == '=') pair with
    | (_, none) => none
    | (name, some value) =>
      if value.isEmpty then none else some (name, value))

/-- `parse_qs(query).get("v", [None])[0]`: the first `v` value, if any
(`parse_qs` groups `parse_qsl` pairs by name in order of appearance, so the
first element of the `"v"` group is the first `v=`-pair's value). -/
def qs_get_v_first (query : List Char) : Option (List Char) :=
  ((parse_qsl query).find? (fun p => p.1 == ['v'])).map (fun p => p.2)

/-- The watch-page hosts recognized by `extract_video_id`. -/
def known_hosts : List (List Char) :=
  ["www.youtube.com".data, "youtube.com".data, "m.youtube.com".data]

/-- `extract_video_id`: on a known watch-page host, the first `v` query
value; on `youtu.be`, the path with leading slashes stripped (empty →
`None`); anything else → `None`.  The Python `try/except` silences parse
errors; the model is total, so no input raises. -/
def extract_video_id (youtube_url : List Char) : Option (List Char) :=
  let parsed := pyUrlparse youtube_url
  if known_hosts.contains parsed.netloc then qs_get_v_first parsed.query
  else if parsed.netloc == "youtu.be".data then
    let s := parsed.path.dropWhile (fun c => c == '/')
    if s.isEmpty then none else some s
  else none

/-- The character set of well-formed YouTube video ids: alphanumeric,
`'-'`, `'_'`. -/
def idChar (c : Char) : Bool :=
  c.isAlphanum || c == '-' || c == '_'

/-- A well-formed video id: nonempty and made of id characters. -/
def idOk (id : List Char) : Bool :=
  !id.isEmpty && id.all idChar

/-! ## Helper lemmas -/

theorem dictInsert_length_le {V : Type} (k : String) (v : V) :
    ∀ l : List (String × V), (dictInsert k v l).length ≤ l.length + 1 := by
  intro l
  induction l with
  | nil => simp [dictInsert]
  | cons x rest ih =>
    obtain ⟨k', v'⟩ := x
    unfold dictInsert
    by_cases h : (k' == k) = true
    · simp [h]
    · have h' : (k' == k) = false := by simpa using h
      simp only [h', Bool.false_eq_true, if_false, List.length_cons]
      omega

theorem dictInsert_fresh {V : Type} (k : String) (v : V) :
    ∀ l : List (String × V), (∀ p ∈ l, p.1 ≠ k) → dictInsert k v l = l ++ [(k, v)] := by
  intro l
  induction l with
  | nil => intro _; rfl
  | cons x rest ih =>
    intro hfresh
    obtain ⟨k', v'⟩ := x
    have hne : k' ≠ k := hfresh (k', v') (List.mem_cons_self _ _)
    unfold dictInsert
    rw [if_neg (by simpa using hne), ih (fun p hp => hfresh p (List.mem_cons_of_mem _ hp))]
    rfl

theorem delKey_cons_self {V : Type} (k : String) (v : V) (rest : List (String × V)) :
    delKey k ((k, v) :: rest) = rest := by
  simp [delKey]

/-- Every message matching the 429 retry tokens also matches the
access-restricted keyword list: the first three restricted keywords are
exactly the retry tokens, and substring matching is preserved by
lowering. -/
theorem is_429_error_implies_restricted (msg : String)
    (h : is_429_error msg = true) : is_access_restricted_error msg = true := by
  unfold is_429_error at h
  simp only [List.any_cons, List.any_nil, Bool.or_eq_true, Bool.or_false] at h
  unfold is_access_restricted_error restricted_keywords
  simp only [List.any_cons, List.any_nil, Bool.or_eq_true, Bool.or_false]
  rcases h with h | h | h
  · exact Or.inl (containsSub_map_lower _ _ h)
  · exact Or.inr (Or.inl (containsSub_map_lower _ _ h))
  · exact Or.inr (Or.inr (Or.inl (containsSub_map_lower _ _ h)))

/-- Characterization of the chain's failure: `fetch_transcript_text`
raises exactly when every stage declines, and the exception is always the
aggregated plain one. -/
theorem fetch_error_iff (apiKey : Option String) (runs : StrategyRuns) (e : PyExc) :
    fetch_transcript_text apiKey runs = Except.error e ↔
      (e = PyExc.otherExc all_methods_failed_message
       ∧ stage1_result apiKey runs.try_youtube_api = none
       ∧ stage2_result runs.download_audio_with_ytdlp = none
       ∧ stage3_result runs.download_audio_with_advanced_stealth = none
       ∧ stage4_result runs.download_audio_with_selenium = none
       ∧ stage5_result runs.try_alternative_extraction = none) := by
  unfold fetch_transcript_text
  cases h1 : stage1_result apiKey runs.try_youtube_api with
  | some r => simp [h1]
  | none =>
    cases h2 : stage2_result runs.download_audio_with_ytdlp with
    | some r => simp [h2]
    | none =>
      cases h3 : stage3_result runs.download_audio_with_advanced_stealth with
      | some r => simp [h3]
      | none =>
        cases h4 : stage4_result runs.download_audio_with_selenium with
        | some r => simp [h4]
        | none =>
          cases h5 : stage5_result runs.try_alternative_extraction with
          | some r => simp [h5]
          | none =>
            simp only [Except.error.injEq]
            constructor
            · intro he; exact ⟨he.symm, trivial, trivial, trivial, trivial, trivial⟩
            · intro he; exact he.1.symm

/-! ## Claim theorems -/

/-- C6: for every non-negative duration `d`, `estimate_processing_time`
returns 60 for `d = 0` (checked first), 48 for `0 < d ≤ 300`, 70 for
`d ≥ 900`, and otherwise the linear interpolation between `(300, 48)` and
`(900, 70)` truncated toward zero (the value is positive, so truncation
toward zero is the floor); in particular `estimate(600) = 59`,
`estimate(100) = 48`, `estimate(1200) = 70`. -/
theorem estimate_processing_time_spec :
    estimate_processing_time 0 = 60
    ∧ (∀ d : ℕ, 0 < d → d ≤ 300 → estimate_processing_time d = 48)
    ∧ (∀ d : ℕ, 900 ≤ d → estimate_processing_time d = 70)
    ∧ (∀ d : ℕ, 300 < d → d < 900 →
        estimate_processing_time d =
          ⌊(48 : ℚ) + (70 - 48) * ((d : ℚ) - 300) / (900 - 300)⌋₊)
    ∧ estimate_processing_time 600 = 59
    ∧ estimate_processing_time 100 = 48
    ∧ estimate_processing_time 1200 = 70 := by
  refine ⟨rfl, ?_, ?_, ?_, by decide, by decide, by decide⟩
  · intro d h0 h300
    unfold estimate_processing_time
    rw [if_neg (by omega), if_pos h300]
  · intro d h900
    unfold estimate_processing_time
    rw [if_neg (by omega), if_neg (by omega), if_pos h900]
  · intro d h1 h2
    unfold estimate_processing_time
    rw [if_neg (by omega), if_neg (by omega), if_neg (by omega)]
    have hq : (48 : ℚ) + (70 - 48) * ((d : ℚ) - 300) / (900 - 300)
        = ((22 * d + 22200 : ℕ) : ℚ) / ((600 : ℕ) : ℚ) := by
      have h1' : (300 : ℚ) ≤ (d : ℚ) := by exact_mod_cast Nat.le_of_lt h1
      push_cast
      ring
    rw [hq, Nat.floor_div_nat, Nat.floor_natCast]

/-- C6 witness: the interpolation branch of the theorem applied at the
concrete midpoint 450, and the low branch at 200. -/
theorem estimate_processing_time_spec_witness :
    estimate_processing_time 450 =
      ⌊(48 : ℚ) + (70 - 48) * (((450 : ℕ) : ℚ) - 300) / (900 - 300)⌋₊
    ∧ estimate_processing_time 200 = 48 :=
  ⟨estimate_processing_time_spec.2.2.2.1 450 (by norm_num) (by norm_num),
   estimate_processing_time_spec.2.1 200 (by norm_num) (by norm_num)⟩

/-- C7: the summary adapter passes a transcript of at most 16000
characters unchanged; a longer transcript is replaced by its first 12000
characters, the ellipsis marker, and its last 3000 characters, in that
order (`List.rtake` selects the last elements), giving 15005 characters
in all (15000 of the transcript plus the 5-character marker). -/
theorem truncate_transcript_spec :
    (∀ t : List Char, t.length ≤ 16000 → truncate_transcript t = t)
    ∧ (∀ t : List Char, 16000 < t.length →
        truncate_transcript t = t.take 12000 ++ ellipsis_marker ++ t.rtake 3000
        ∧ (truncate_transcript t).length = 15005) := by
  constructor
  · intro t hle
    unfold truncate_transcript
    rw [if_neg (by omega)]
  · intro t hgt
    have heq : truncate_transcript t
        = t.take 12000 ++ ellipsis_marker ++ t.rtake 3000 := by
      unfold truncate_transcript
      rw [if_pos (by omega)]
      rfl
    refine ⟨heq, ?_⟩
    rw [heq]
    simp only [List.length_append, List.length_take, List.rtake, List.length_drop]
    have hm : ellipsis_marker.length = 5 := by decide
    rw [hm]
    omega

/-- C7 witness: a 20000-character transcript is reduced to exactly its
first 12000 characters, the marker, and its last 3000 characters. -/
theorem truncate_transcript_spec_witness :
    16000 < (List.replicate 20000 'x').length
    ∧ truncate_transcript (List.replicate 20000 'x')
        = List.replicate 12000 'x' ++ ellipsis_marker ++ List.replicate 3000 'x' := by
  have h : 16000 < (List.replicate 20000 'x').length := by
    rw [List.length_replicate]
    omega
  refine ⟨h, ?_⟩
  have h2 := (truncate_transcript_spec.2 (List.replicate 20000 'x') h).1
  rw [h2]
  unfold List.rtake
  rw [List.take_replicate, List.drop_replicate, List.length_replicate]
  norm_num

/-- C2 counterexample: an operation that on every invocation raises an
error classified `RATE_LIMITED` (its message contains "429" and "Too Many
Requests") is invoked exactly once — not 5 times — because the
access-restricted keyword list also contains the 429 tokens and that check
runs first. -/
theorem with_backoff_429_counterexample :
    with_backoff (fun _ =>
        (Except.error "HTTP Error 429: Too Many Requests" : Except String Nat))
      = (Except.error "HTTP Error 429: Too Many Requests", 1)
    ∧ (1 : Nat) ≠ 5 := by
  constructor
  · rfl
  · decide

/-- C2 amended: for every operation that on each invocation raises an
error whose message matches the 429 retry tokens, `_with_backoff` invokes
the operation exactly once and propagates that first error: every
429-classified message is also matched by the access-restricted keyword
list, which is checked first, so the retry branch is unreachable. -/
theorem with_backoff_429_aborts {α : Type} (op : Nat → Except String α)
    (msgF : Nat → String)
    (hop : ∀ n, op n = Except.error (msgF n))
    (h429 : ∀ n, is_429_error (msgF n) = true) :
    with_backoff op = (Except.error (msgF 0), 1) := by
  have hres := is_429_error_implies_restricted (msgF 0) (h429 0)
  unfold with_backoff backoff_delays with_backoff_go
  rw [hop 0]
  simp [hres]

/-- C2 amended witness: the always-429 operation raising "got 429 from
upstream" is attempted exactly once. -/
theorem with_backoff_429_aborts_witness :
    with_backoff (fun _ => (Except.error "got 429 from upstream" : Except String Nat))
      = (Except.error "got 429 from upstream", 1) := by
  have h : is_429_error "got 429 from upstream" = true := by decide
  exact with_backoff_429_aborts _ (fun _ => "got 429 from upstream")
    (fun _ => rfl) (fun _ => h)

/-- C3: for every error message matched by both the restricted-access
keyword list and the 429 tokens, classification yields
`ACCESS_RESTRICTED` (not `RATE_LIMITED`), and `_with_backoff` applied to
an operation that always raises it aborts immediately: the operation is
invoked exactly once and the error propagates. -/
theorem restricted_priority_aborts {α : Type} (op : Nat → Except String α)
    (msg : String)
    (hop : ∀ n, op n = Except.error msg)
    (hres : is_access_restricted_error msg = true)
    (h429 : is_429_error msg = true) :
    classify_error msg = ErrorClass.accessRestricted
    ∧ classify_error msg ≠ ErrorClass.rateLimited
    ∧ with_backoff op = (Except.error msg, 1) := by
  have hclass : classify_error msg = ErrorClass.accessRestricted := by
    unfold classify_error
    rw [hres]
    simp
  refine ⟨hclass, by rw [hclass]; decide, ?_⟩
  unfold with_backoff backoff_delays with_backoff_go
  rw [hop 0]
  simp [hres]

/-- C3 witness: the message "Too Many Requests - 429 - blocked" matches
both keyword sets; the operation raising it is attempted exactly once. -/
theorem restricted_priority_aborts_witness :
    classify_error "Too Many Requests - 429 - blocked" = ErrorClass.accessRestricted
    ∧ classify_error "Too Many Requests - 429 - blocked" ≠ ErrorClass.rateLimited
    ∧ with_backoff (fun _ =>
        (Except.error "Too Many Requests - 429 - blocked" : Except String Nat))
      = (Except.error "Too Many Requests - 429 - blocked", 1) :=
  restricted_priority_aborts _ "Too Many Requests - 429 - blocked"
    (fun _ => rfl) (by decide) (by decide)

/-- One `set_cached_result` call never leaves more than 100 entries when
the cache had at most 100. -/
theorem set_cached_result_length_le {V : Type} (cache : List (String × V))
    (id : String) (v : V) (hlen : cache.length ≤ 100) :
    (set_cached_result id v cache).length ≤ 100 := by
  unfold set_cached_result
  have hins := dictInsert_length_le (get_cache_key id) v cache
  by_cases h : (dictInsert (get_cache_key id) v cache).length > 100
  · rw [if_pos h]
    cases hc : dictInsert (get_cache_key id) v cache with
    | nil => rw [hc] at h; simp at h
    | cons x rest =>
      obtain ⟨k', v'⟩ := x
      simp only [List.head?]
      rw [delKey_cons_self]
      rw [hc] at hins
      simp only [List.length_cons] at hins
      omega
  · rw [if_neg h]
    omega

set_option maxRecDepth 10000 in
set_option maxHeartbeats 4000000 in
/-- C4: after every sequence of put operations starting from the empty
cache, the cache holds at most 100 entries; a put of a new key into a full
cache evicts exactly the oldest-inserted entry before appending the new
one; and inserting 101 distinct video ids into an empty cache leaves
exactly 100 entries, with the first-inserted id absent and the 2nd through
101st present. -/
theorem set_cached_result_spec :
    (∀ (V : Type) (ops : List (String × V)),
        (ops.foldl (fun c p => set_cached_result p.1 p.2 c) []).length ≤ 100)
    ∧ (∀ (V : Type) (cache : List (String × V)) (id : String) (v : V),
        cache.length ≤ 100 → (set_cached_result id v cache).length ≤ 100)
    ∧ (∀ (V : Type) (cache : List (String × V)) (id : String) (v : V),
        cache.length = 100 →
        (∀ p ∈ cache, p.1 ≠ get_cache_key id) →
        set_cached_result id v cache = cache.tail ++ [(get_cache_key id, v)])
    ∧ (let ids := (List.range 101).map (fun n => "v" ++ toString n);
       let final := ids.foldl (fun c id => set_cached_result id (0 : Nat) c) [];
       final.length = 100
       ∧ get_cached_result "v0" final = none
       ∧ ((List.range 100).all
            (fun k => (get_cached_result ("v" ++ toString (k + 1)) final).isSome)) = true) := by
  refine ⟨?_, ?_, ?_, by decide⟩
  · intro V ops
    have hgen : ∀ (cache : List (String × V)), cache.length ≤ 100 →
        (ops.foldl (fun c p => set_cached_result p.1 p.2 c) cache).length ≤ 100 := by
      induction ops with
      | nil => intro cache h; simpa using h
      | cons p rest ih =>
        intro cache h
        rw [List.foldl_cons]
        exact ih _ (set_cached_result_length_le cache p.1 p.2 h)
    exact hgen [] (by simp)
  · intro V cache id v hlen
    exact set_cached_result_length_le cache id v hlen
  · intro V cache id v hlen hfresh
    unfold set_cached_result
    rw [dictInsert_fresh _ _ _ hfresh]
    have hlen' : (cache ++ [(get_cache_key id, v)]).length = 101 := by
      simp [hlen]
    rw [if_pos (by omega)]
    cases cache with
    | nil => simp at hlen
    | cons x rest =>
      obtain ⟨k', v'⟩ := x
      simp only [List.cons_append, List.head?]
      rw [delKey_cons_self]
      rfl

/-- C4 witness: the sequence bound applied to a concrete two-put sequence
and the single-step bound applied to an insertion into the empty cache. -/
theorem set_cached_result_spec_witness :
    (([("a", (1 : Nat)), ("b", 2)].foldl
        (fun c p => set_cached_result p.1 p.2 c) []).length ≤ 100)
    ∧ (([] : List (String × Nat)).length ≤ 100)
    ∧ (set_cached_result "abc" (7 : Nat) ([] : List (String × Nat))).length ≤ 100 :=
  ⟨set_cached_result_spec.1 Nat [("a", 1), ("b", 2)], by decide,
   set_cached_result_spec.2.1 Nat [] "abc" 7 (by decide)⟩

/-- C5 counterexample: with the track list `[ko auto-generated, ko
manually-created]`, the source's selection returns the auto-generated
track (the first listed `'ko'` track), while the spec's claimed tie-break
order would return the manually-created one — so the claimed
manual-source-first order does not hold. -/
theorem caption_tiebreak_counterexample :
    select_caption_track [⟨"ko", true⟩, ⟨"ko", false⟩] = some ⟨"ko", true⟩
    ∧ spec_caption_tiebreak [⟨"ko", true⟩, ⟨"ko", false⟩] = some ⟨"ko", false⟩
    ∧ (⟨"ko", true⟩ : CaptionTrack) ≠ ⟨"ko", false⟩ := by
  refine ⟨rfl, rfl, by decide⟩

/-- C5 amended: caption tracks are selected as the first listed track
whose language is `'ko'`, regardless of source kind; if none, the first
listed track whose language is `'en'`, regardless of source kind; there
is no manually-created-first preference and no machine-translated tier,
and changing every track's kind never changes which position is chosen. -/
theorem select_caption_track_amended :
    (∀ (items : List CaptionTrack) (c : CaptionTrack),
        items.find? (fun c => c.language == "ko") = some c →
        select_caption_track items = some c)
    ∧ (∀ items : List CaptionTrack,
        items.find? (fun c => c.language == "ko") = none →
        select_caption_track items = items.find? (fun c => c.language == "en"))
    ∧ (∀ (items : List CaptionTrack) (g : CaptionTrack → Bool),
        select_caption_track (items.map (fun c => ⟨c.language, g c⟩)) =
          (select_caption_track items).map (fun c => ⟨c.language, g c⟩)) := by
  refine ⟨?_, ?_, ?_⟩
  · intro items c h
    unfold select_caption_track
    rw [h]
  · intro items h
    unfold select_caption_track
    rw [h]
  · intro items g
    unfold select_caption_track
    rw [List.find?_map, List.find?_map]
    have hko : ((fun c : CaptionTrack => c.language == "ko")
        ∘ (fun c : CaptionTrack => (⟨c.language, g c⟩ : CaptionTrack)))
        = (fun c : CaptionTrack => c.language == "ko") := rfl
    have hen : ((fun c : CaptionTrack => c.language == "en")
        ∘ (fun c : CaptionTrack => (⟨c.language, g c⟩ : CaptionTrack)))
        = (fun c : CaptionTrack => c.language == "en") := rfl
    rw [hko, hen]
    cases hfind : items.find? (fun c => c.language == "ko") with
    | some c => simp
    | none => simp

/-- C5 amended witness: a singleton `'ko'` list is selected by the
first-`'ko'` rule. -/
theorem select_caption_track_amended_witness :
    select_caption_track [⟨"ko", false⟩] = some ⟨"ko", false⟩ :=
  select_caption_track_amended.1 [⟨"ko", false⟩] ⟨"ko", false⟩ (by decide)

/-- C1 counterexample: with `YOUTUBE_API_KEY` unset and strategies 2–4
raising, strategy 5 completes without raising, returning its default
placeholder (which lacks the title marker) — yet the chain still raises
the aggregated all-methods-exhausted failure.  So the chain can reach
unconditional failure even when strategy 5 does not throw, and the
placeholder return of a strategy is not "the result of the first strategy
that returns a non-empty result without raising". -/
theorem fetch_chain_counterexample :
    (let runs : StrategyRuns :=
      ⟨Except.error (PyExc.otherExc "api down"),
       Except.error (PyExc.otherExc "download blocked"),
       Except.error (PyExc.otherExc "stealth blocked"),
       Except.error (PyExc.otherExc "selenium missing"),
       Except.ok (alternative_default_message "abc123")⟩;
     runs.try_alternative_extraction
        = Except.ok (alternative_default_message "abc123")
     ∧ alternative_default_message "abc123" ≠ ""
     ∧ fetch_transcript_text none runs
        = Except.error (PyExc.otherExc all_methods_failed_message)) := by
  refine ⟨rfl, by decide, ?_⟩
  rfl

/-- C1 amended: the chain returns the result of the first strategy whose
result passes that stage's acceptance guard (stage 1: API key set and a
non-empty, non-`None` string; stages 2–3: any return; stage 4: a
non-empty, non-`None` string; stage 5: a non-empty string **containing
the title marker** "영상 제목"); it raises the aggregated
all-methods-exhausted failure exactly when every stage declines — in
particular also when strategy 5 returns, without raising, a placeholder
that lacks the title marker. -/
theorem fetch_chain_amended :
    (∀ (apiKey : Option String) (runs : StrategyRuns) (e : PyExc),
        fetch_transcript_text apiKey runs = Except.error e ↔
          (e = PyExc.otherExc all_methods_failed_message
           ∧ stage1_result apiKey runs.try_youtube_api = none
           ∧ stage2_result runs.download_audio_with_ytdlp = none
           ∧ stage3_result runs.download_audio_with_advanced_stealth = none
           ∧ stage4_result runs.download_audio_with_selenium = none
           ∧ stage5_result runs.try_alternative_extraction = none))
    ∧ (∀ t : String, stage5_result (Except.ok t) = none ↔
        (t = "" ∨ containsSub title_marker t = false)) := by
  constructor
  · exact fetch_error_iff
  · intro t
    by_cases h0 : t = ""
    · simp [stage5_result, h0]
    · cases hc : containsSub title_marker t with
      | true => simp [stage5_result, h0, hc]
      | false => simp [stage5_result, h0, hc]

theorem stage1_result_tag {a : Option String} {s : Except PyExc (Option String)}
    {r : String × Option String} (h : stage1_result a s = some r) :
    r.2 = some "youtube_api" := by
  unfold stage1_result at h
  cases a with
  | none => simp at h
  | some k =>
    dsimp only at h
    by_cases hk : k = ""
    · simp [hk] at h
    · rw [if_neg hk] at h
      cases s with
      | error e => simp at h
      | ok o =>
        cases o with
        | none => simp at h
        | some t =>
          dsimp only at h
          by_cases ht : t = ""
          · simp [ht] at h
          · rw [if_neg ht] at h
            rw [← Option.some.inj h]

theorem stage2_result_tag {s : Except PyExc String} {r : String × Option String}
    (h : stage2_result s = some r) : r.2 = some "whisper" := by
  unfold stage2_result at h
  cases s with
  | error e => simp at h
  | ok t => rw [← Option.some.inj h]

theorem stage3_result_tag {s : Except PyExc String} {r : String × Option String}
    (h : stage3_result s = some r) : r.2 = some "advanced_stealth" := by
  unfold stage3_result at h
  cases s with
  | error e => simp at h
  | ok t => rw [← Option.some.inj h]

theorem stage4_result_tag {s : Except PyExc (Option String)}
    {r : String × Option String} (h : stage4_result s = some r) :
    r.2 = some "selenium" := by
  unfold stage4_result at h
  cases s with
  | error e => simp at h
  | ok o =>
    cases o with
    | none => simp at h
    | some t =>
      dsimp only at h
      by_cases ht : t = ""
      · simp [ht] at h
      · rw [if_neg ht] at h
        rw [← Option.some.inj h]

theorem stage5_result_tag {s : Except PyExc String} {r : String × Option String}
    (h : stage5_result s = some r) : r.2 = some "alternative" := by
  unfold stage5_result at h
  cases s with
  | error e => simp at h
  | ok t =>
    dsimp only at h
    by_cases ht : t = ""
    · simp [ht] at h
    · rw [if_neg ht] at h
      cases hc : containsSub title_marker t with
      | false => rw [hc] at h; simp at h
      | true =>
        rw [hc] at h
        simp only [if_true] at h
        rw [← Option.some.inj h]

/-- Every successful chain result carries one of the five fixed method
tags. -/
theorem fetch_ok_tag (apiKey : Option String) (runs : StrategyRuns)
    (r : String × Option String)
    (h : fetch_transcript_text apiKey runs = Except.ok r) :
    r.2 = some "youtube_api" ∨ r.2 = some "whisper"
      ∨ r.2 = some "advanced_stealth" ∨ r.2 = some "selenium"
      ∨ r.2 = some "alternative" := by
  unfold fetch_transcript_text at h
  cases h1 : stage1_result apiKey runs.try_youtube_api with
  | some r1 =>
    rw [h1] at h
    dsimp only at h
    obtain rfl := Except.ok.inj h
    exact Or.inl (stage1_result_tag h1)
  | none =>
    rw [h1] at h
    dsimp only at h
    cases h2 : stage2_result runs.download_audio_with_ytdlp with
    | some r2 =>
      rw [h2] at h
      dsimp only at h
      obtain rfl := Except.ok.inj h
      exact Or.inr (Or.inl (stage2_result_tag h2))
    | none =>
      rw [h2] at h
      dsimp only at h
      cases h3 : stage3_result runs.download_audio_with_advanced_stealth with
      | some r3 =>
        rw [h3] at h
        dsimp only at h
        obtain rfl := Except.ok.inj h
        exact Or.inr (Or.inr (Or.inl (stage3_result_tag h3)))
      | none =>
        rw [h3] at h
        dsimp only at h
        cases h4 : stage4_result runs.download_audio_with_selenium with
        | some r4 =>
          rw [h4] at h
          dsimp only at h
          obtain rfl := Except.ok.inj h
          exact Or.inr (Or.inr (Or.inr (Or.inl (stage4_result_tag h4))))
        | none =>
          rw [h4] at h
          dsimp only at h
          cases h5 : stage5_result runs.try_alternative_extraction with
          | some r5 =>
            rw [h5] at h
            dsimp only at h
            obtain rfl := Except.ok.inj h
            exact Or.inr (Or.inr (Or.inr (Or.inr (stage5_result_tag h5))))
          | none =>
            rw [h5] at h
            exact absurd h (by simp)

/-- C9: every successful run of the chain carries one of the five fixed
method tags as its second component — never the language code "ko" — so
the `lang_code == "ko"` comparison in `summarize_with_openai` is always
false on chain output and the translate-then-summarize prompt template is
always the one selected. -/
theorem fetch_lang_tag (apiKey : Option String) (runs : StrategyRuns)
    (t : String) (lang : Option String)
    (h : fetch_transcript_text apiKey runs = Except.ok (t, lang)) :
    (lang = some "youtube_api" ∨ lang = some "whisper"
      ∨ lang = some "advanced_stealth" ∨ lang = some "selenium"
      ∨ lang = some "alternative")
    ∧ (lang == some "ko") = false
    ∧ select_user_prompt t lang = translate_user_prompt t := by
  have htag := fetch_ok_tag apiKey runs (t, lang) h
  have hko : (lang == some "ko") = false := by
    rcases htag with h' | h' | h' | h' | h' <;> dsimp only at h' <;> rw [h'] <;> decide
  refine ⟨htag, hko, ?_⟩
  unfold select_user_prompt
  rw [hko]
  simp

/-- C9 witness: a successful stage-1 run yields the tag "youtube_api",
which is not "ko", and selects the translate-then-summarize template. -/
theorem fetch_lang_tag_witness :
    ((some "youtube_api" : Option String) = some "youtube_api"
      ∨ (some "youtube_api" : Option String) = some "whisper"
      ∨ (some "youtube_api" : Option String) = some "advanced_stealth"
      ∨ (some "youtube_api" : Option String) = some "selenium"
      ∨ (some "youtube_api" : Option String) = some "alternative")
    ∧ ((some "youtube_api" : Option String) == some "ko") = false
    ∧ select_user_prompt "hello" (some "youtube_api")
        = translate_user_prompt "hello" :=
  fetch_lang_tag (some "k")
    ⟨Except.ok (some "hello"),
     Except.error (PyExc.otherExc "x"),
     Except.error (PyExc.otherExc "x"),
     Except.error (PyExc.otherExc "x"),
     Except.error (PyExc.otherExc "x")⟩
    "hello" (some "youtube_api") rfl

/-- C10: `fetch_transcript_text` never lets a `TranscriptsDisabled` or
`NoTranscriptFound` exception escape — every stage's exceptions are
swallowed and total failure raises a plain aggregated `Exception` — so
every chain failure maps to the 500 branch of the `summarize` endpoints,
never the 404 not-found branch. -/
theorem fetch_failure_is_500 (apiKey : Option String) (runs : StrategyRuns)
    (e : PyExc) (h : fetch_transcript_text apiKey runs = Except.error e) :
    e = PyExc.otherExc all_methods_failed_message
    ∧ (∀ msg, e ≠ PyExc.transcriptsDisabled msg ∧ e ≠ PyExc.noTranscriptFound msg)
    ∧ exc_status e = 500 := by
  have he := ((fetch_error_iff apiKey runs e).mp h).1
  refine ⟨he, ?_, ?_⟩
  · intro msg
    rw [he]
    exact ⟨by simp, by simp⟩
  · rw [he]
    rfl

/-- C10 witness: the all-strategies-failing run raises the aggregated
plain exception and maps to status 500. -/
theorem fetch_failure_is_500_witness :
    PyExc.otherExc all_methods_failed_message
        = PyExc.otherExc all_methods_failed_message
    ∧ (∀ msg, PyExc.otherExc all_methods_failed_message
          ≠ PyExc.transcriptsDisabled msg
        ∧ PyExc.otherExc all_methods_failed_message
          ≠ PyExc.noTranscriptFound msg)
    ∧ exc_status (PyExc.otherExc all_methods_failed_message) = 500 :=
  fetch_failure_is_500 none
    ⟨Except.error (PyExc.transcriptsDisabled "disabled"),
     Except.error (PyExc.noTranscriptFound "none found"),
     Except.error (PyExc.otherExc "stealth blocked"),
     Except.error (PyExc.otherExc "selenium missing"),
     Except.error (PyExc.otherExc "alternative failed")⟩
    (PyExc.otherExc all_methods_failed_message) rfl

/-! ## Parsing lemmas for the resolver -/

theorem breakFirst_none (p : Char → Bool) :
    ∀ l : List Char, l.all (fun c => !p c) = true → breakFirst p l = (l, none) := by
  intro l
  induction l with
  | nil => intro _; rfl
  | cons a rest ih =>
    intro h
    rw [List.all_cons, Bool.and_eq_true] at h
    have ha : p a = false := by simpa using h.1
    unfold breakFirst
    rw [ha]
    simp only [Bool.false_eq_true, if_false, ih h.2]

theorem breakFirst_append_found (p : Char → Bool) :
    ∀ (l : List Char) (c : Char) (r : List Char),
      l.all (fun x => !p x) = true → p c = true →
      breakFirst p (l ++ c :: r) = (l, some r) := by
  intro l
  induction l with
  | nil =>
    intro c r _ hc
    rw [List.nil_append]
    unfold breakFirst
    rw [hc]
    simp
  | cons a rest ih =>
    intro c r h hc
    rw [List.all_cons, Bool.and_eq_true] at h
    have ha : p a = false := by simpa using h.1
    rw [List.cons_append]
    unfold breakFirst
    rw [ha]
    simp only [Bool.false_eq_true, if_false, ih c r h.2 hc]

theorem splitSep_no_sep (sep : Char) :
    ∀ l : List Char, l.all (fun c => !(c == sep)) = true → splitSep sep l = [l] := by
  intro l
  induction l with
  | nil => intro _; rfl
  | cons a rest ih =>
    intro h
    rw [List.all_cons, Bool.and_eq_true] at h
    have ha : (a == sep) = false := by simpa using h.1
    unfold splitSep
    rw [ih h.2, ha]
    simp

theorem dropWhile_all_not (p : Char → Bool) :
    ∀ l : List Char, l.all (fun c => !p c) = true → l.dropWhile p = l := by
  intro l
  induction l with
  | nil => intro _; rfl
  | cons a rest ih =>
    intro h
    rw [List.all_cons, Bool.and_eq_true] at h
    have ha : p a = false := by simpa using h.1
    rw [List.dropWhile_cons_of_neg (by simp [ha])]

/-- Id characters avoid every URL delimiter `d` with `idChar d = false`. -/
theorem all_not_delim_of_idChar (id : List Char) (d : Char)
    (hd : idChar d = false) (h : id.all idChar = true) :
    id.all (fun c => !(c == d)) = true := by
  rw [List.all_eq_true] at h ⊢
  intro c hc
  have hcid := h c hc
  cases hbe : c == d
  · rfl
  · exact absurd ((beq_iff_eq.mp hbe) ▸ hcid) (by simp [hd])

/-- A query of the exact shape `v=<id>` yields `<id>` as the first `v`
value. -/
theorem qs_get_v_first_simple (id : List Char) (hne : id ≠ [])
    (hclean : id.all (fun c => !(c == '&')) = true) :
    qs_get_v_first ('v' :: '=' :: id) = some id := by
  have hie : id.isEmpty = false := by
    cases id with
    | nil => exact absurd rfl hne
    | cons a l => rfl
  have hsplit : splitSep '&' ('v' :: '=' :: id) = ['v' :: '=' :: id] := by
    apply splitSep_no_sep
    rw [List.all_cons, List.all_cons]
    simp only [hclean]
    decide
  unfold qs_get_v_first parse_qsl
  rw [hsplit, List.filterMap_cons]
  have hbf : breakFirst (fun c => c == '=') ('v' :: '=' :: id) = (['v'], some id) := rfl
  rw [hbf]
  dsimp only
  rw [hie]
  simp [List.find?]

/-- `pyUrlparse` of a canonical watch URL on `www.youtube.com`. -/
theorem pyUrlparse_www_watch (id : List Char) (hall : id.all idChar = true) :
    pyUrlparse ("https://www.youtube.com/watch?v=".data ++ id)
      = ⟨"https".data, "www.youtube.com".data, "/watch".data, 'v' :: '=' :: id, []⟩ := by
  have e1 : splitScheme ("https://www.youtube.com/watch?v=".data ++ id)
      = ("https".data, "//www.youtube.com/watch?v=".data ++ id) := rfl
  have e2 : splitNetloc ("//www.youtube.com/watch?v=".data ++ id)
      = ("www.youtube.com".data, "/watch?v=".data ++ id) := rfl
  have e3 : splitFragment ("/watch?v=".data ++ id) = ("/watch?v=".data ++ id, []) := by
    unfold splitFragment
    rw [breakFirst_none _ _ ?hclean]
    case hclean =>
      rw [List.all_append]
      refine (Bool.and_eq_true _ _).mpr ⟨by decide, ?_⟩
      exact all_not_delim_of_idChar id '#' (by decide) hall
  have e4 : splitQuery ("/watch?v=".data ++ id) = ("/watch".data, 'v' :: '=' :: id) := by
    unfold splitQuery
    have e : "/watch?v=".data ++ id = "/watch".data ++ '?' :: ('v' :: '=' :: id) := rfl
    rw [e, breakFirst_append_found _ _ _ _ (by decide) (by decide)]
  unfold pyUrlparse
  simp only [e1, e2, e3, e4]

/-- `pyUrlparse` of a canonical watch URL on `youtube.com`. -/
theorem pyUrlparse_plain_watch (id : List Char) (hall : id.all idChar = true) :
    pyUrlparse ("https://youtube.com/watch?v=".data ++ id)
      = ⟨"https".data, "youtube.com".data, "/watch".data, 'v' :: '=' :: id, []⟩ := by
  have e1 : splitScheme ("https://youtube.com/watch?v=".data ++ id)
      = ("https".data, "//youtube.com/watch?v=".data ++ id) := rfl
  have e2 : splitNetloc ("//youtube.com/watch?v=".data ++ id)
      = ("youtube.com".data, "/watch?v=".data ++ id) := rfl
  have e3 : splitFragment ("/watch?v=".data ++ id) = ("/watch?v=".data ++ id, []) := by
    unfold splitFragment
    rw [breakFirst_none _ _ ?hclean]
    case hclean =>
      rw [List.all_append]
      refine (Bool.and_eq_true _ _).mpr ⟨by decide, ?_⟩
      exact all_not_delim_of_idChar id '#' (by decide) hall
  have e4 : splitQuery ("/watch?v=".data ++ id) = ("/watch".data, 'v' :: '=' :: id) := by
    unfold splitQuery
    have e : "/watch?v=".data ++ id = "/watch".data ++ '?' :: ('v' :: '=' :: id) := rfl
    rw [e, breakFirst_append_found _ _ _ _ (by decide) (by decide)]
  unfold pyUrlparse
  simp only [e1, e2, e3, e4]

/-- `pyUrlparse` of a canonical watch URL on `m.youtube.com`. -/
theorem pyUrlparse_mobile_watch (id : List Char) (hall : id.all idChar = true) :
    pyUrlparse ("https://m.youtube.com/watch?v=".data ++ id)
      = ⟨"https".data, "m.youtube.com".data, "/watch".data, 'v' :: '=' :: id, []⟩ := by
  have e1 : splitScheme ("https://m.youtube.com/watch?v=".data ++ id)
      = ("https".data, "//m.youtube.com/watch?v=".data ++ id) := rfl
  have e2 : splitNetloc ("//m.youtube.com/watch?v=".data ++ id)
      = ("m.youtube.com".data, "/watch?v=".data ++ id) := rfl
  have e3 : splitFragment ("/watch?v=".data ++ id) = ("/watch?v=".data ++ id, []) := by
    unfold splitFragment
    rw [breakFirst_none _ _ ?hclean]
    case hclean =>
      rw [List.all_append]
      refine (Bool.and_eq_true _ _).mpr ⟨by decide, ?_⟩
      exact all_not_delim_of_idChar id '#' (by decide) hall
  have e4 : splitQuery ("/watch?v=".data ++ id) = ("/watch".data, 'v' :: '=' :: id) := by
    unfold splitQuery
    have e : "/watch?v=".data ++ id = "/watch".data ++ '?' :: ('v' :: '=' :: id) := rfl
    rw [e, breakFirst_append_found _ _ _ _ (by decide) (by decide)]
  unfold pyUrlparse
  simp only [e1, e2, e3, e4]

/-- `pyUrlparse` of a canonical `youtu.be` short link. -/
theorem pyUrlparse_short_link (id : List Char) (hall : id.all idChar = true) :
    pyUrlparse ("https://youtu.be/".data ++ id)
      = ⟨"https".data, "youtu.be".data, '/' :: id, [], []⟩ := by
  have e1 : splitScheme ("https://youtu.be/".data ++ id)
      = ("https".data, "//youtu.be/".data ++ id) := rfl
  have e2 : splitNetloc ("//youtu.be/".data ++ id)
      = ("youtu.be".data, '/' :: id) := rfl
  have e3 : splitFragment ('/' :: id) = ('/' :: id, []) := by
    unfold splitFragment
    rw [breakFirst_none _ _ ?hclean]
    case hclean =>
      rw [List.all_cons]
      refine (Bool.and_eq_true _ _).mpr ⟨by decide, ?_⟩
      exact all_not_delim_of_idChar id '#' (by decide) hall
  have e4 : splitQuery ('/' :: id) = ('/' :: id, []) := by
    unfold splitQuery
    rw [breakFirst_none _ _ ?hclean]
    case hclean =>
      rw [List.all_cons]
      refine (Bool.and_eq_true _ _).mpr ⟨by decide, ?_⟩
      exact all_not_delim_of_idChar id '?' (by decide) hall
  unfold pyUrlparse
  simp only [e1, e2, e3, e4]

/-- C8: the resolver returns the embedded id for watch-page URLs on the
known YouTube hosts carrying the id in the `v` query parameter and for
`youtu.be` short links carrying the id as the path segment; whenever it
returns an id at all, the input parsed to one of those two shapes; and
every input whose host is neither a known watch-page host nor `youtu.be`
yields `none`.  The model is a total function, so no input raises. -/
theorem extract_video_id_spec :
    (∀ id : List Char, idOk id = true →
       extract_video_id ("https://www.youtube.com/watch?v=".data ++ id) = some id
       ∧ extract_video_id ("https://youtube.com/watch?v=".data ++ id) = some id
       ∧ extract_video_id ("https://m.youtube.com/watch?v=".data ++ id) = some id
       ∧ extract_video_id ("https://youtu.be/".data ++ id) = some id)
    ∧ (∀ url r : List Char, extract_video_id url = some r →
        (known_hosts.contains (pyUrlparse url).netloc = true
          ∧ qs_get_v_first (pyUrlparse url).query = some r)
        ∨ ((pyUrlparse url).netloc = "youtu.be".data
          ∧ r = (pyUrlparse url).path.dropWhile (fun c => c == '/')
          ∧ r ≠ []))
    ∧ (∀ url : List Char,
        known_hosts.contains (pyUrlparse url).netloc = false →
        (pyUrlparse url).netloc ≠ "youtu.be".data →
        extract_video_id url = none) := by
  refine ⟨?_, ?_, ?_⟩
  · intro id hid
    unfold idOk at hid
    rw [Bool.and_eq_true] at hid
    have hne : id ≠ [] := by
      intro h
      rw [h] at hid
      exact absurd hid.1 (by decide)
    have hall : id.all idChar = true := hid.2
    have hie : id.isEmpty = false := by
      cases id with
      | nil => exact absurd rfl hne
      | cons a l => rfl
    have hqs : qs_get_v_first ('v' :: '=' :: id) = some id :=
      qs_get_v_first_simple id hne (all_not_delim_of_idChar id '&' (by decide) hall)
    have hdrop : List.dropWhile (fun c => c == '/') id = id :=
      dropWhile_all_not _ id (all_not_delim_of_idChar id '/' (by decide) hall)
    refine ⟨?_, ?_, ?_, ?_⟩
    · unfold extract_video_id
      rw [pyUrlparse_www_watch id hall]
      have hc : known_hosts.contains "www.youtube.com".data = true := by decide
      simp only [hc, if_true]
      exact hqs
    · unfold extract_video_id
      rw [pyUrlparse_plain_watch id hall]
      have hc : known_hosts.contains "youtube.com".data = true := by decide
      simp only [hc, if_true]
      exact hqs
    · unfold extract_video_id
      rw [pyUrlparse_mobile_watch id hall]
      have hc : known_hosts.contains "m.youtube.com".data = true := by decide
      simp only [hc, if_true]
      exact hqs
    · unfold extract_video_id
      rw [pyUrlparse_short_link id hall]
      have hc : known_hosts.contains "youtu.be".data = false := by decide
      simp only [hc, Bool.false_eq_true, if_false]
      have hbe : ("youtu.be".data == "youtu.be".data) = true := by decide
      simp only [hbe, if_true]
      rw [List.dropWhile_cons_of_pos (by decide), hdrop, hie]
      simp
  · intro url r h
    unfold extract_video_id at h
    by_cases h1 : known_hosts.contains (pyUrlparse url).netloc = true
    · simp only [h1, if_true] at h
      exact Or.inl ⟨h1, h⟩
    · rw [Bool.not_eq_true] at h1
      simp only [h1, Bool.false_eq_true, if_false] at h
      by_cases h2 : ((pyUrlparse url).netloc == "youtu.be".data) = true
      · simp only [h2, if_true] at h
        by_cases h3 : ((pyUrlparse url).path.dropWhile (fun c => c == '/')).isEmpty = true
        · simp only [h3, if_true] at h
          exact absurd h (by simp)
        · rw [Bool.not_eq_true] at h3
          simp only [h3, Bool.false_eq_true, if_false, Option.some.injEq] at h
          refine Or.inr ⟨beq_iff_eq.mp h2, h.symm, ?_⟩
          rw [← h]
          intro hcon
          rw [hcon] at h3
          exact absurd h3 (by decide)
      · rw [Bool.not_eq_true] at h2
        simp only [h2, Bool.false_eq_true, if_false] at h
        exact absurd h (by simp)
  · intro url h1 h2
    unfold extract_video_id
    have h2' : ((pyUrlparse url).netloc == "youtu.be".data) = false := by
      cases hbe : (pyUrlparse url).netloc == "youtu.be".data
      · rfl
      · exact absurd (beq_iff_eq.mp hbe) h2
    simp only [h1, h2', Bool.false_eq_true, if_false]

/-- C8 witness: the canonical shapes applied to the concrete id
"dQw4w9WgXcQ". -/
theorem extract_video_id_spec_witness :
    extract_video_id ("https://www.youtube.com/watch?v=".data ++ "dQw4w9WgXcQ".data)
      = some "dQw4w9WgXcQ".data
    ∧ extract_video_id ("https://youtube.com/watch?v=".data ++ "dQw4w9WgXcQ".data)
      = some "dQw4w9WgXcQ".data
    ∧ extract_video_id ("https://m.youtube.com/watch?v=".data ++ "dQw4w9WgXcQ".data)
      = some "dQw4w9WgXcQ".data
    ∧ extract_video_id ("https://youtu.be/".data ++ "dQw4w9WgXcQ".data)
      = some "dQw4w9WgXcQ".data :=
  extract_video_id_spec.1 "dQw4w9WgXcQ".data (by decide)

end YtSummary
